import Mathlib

/-!
Verification of the query-translation and response-classification layer of
the `mcp-google-analytics` server (`src/index.js`), as a shallow embedding:
each JavaScript function that the specification describes is transcribed
into an executable Lean definition, and the specification's claims are
settled as theorems about those definitions.

JavaScript conventions that matter for fidelity:
* an optional value that may be `undefined` is modelled as `Option _`;
* JS truthiness on strings (`if (s)`) is `jsTruthy`: `undefined` and the
  empty string are falsy, every other string is truthy;
* `a?.b` optional chaining yields `none` when the receiver is `none`.
-/

namespace GAMcp

/-- `startsWithChars hay pat` is true when `pat` is an initial segment of
`hay` (character-by-character), mirroring the prefix step of JS
`String.prototype.includes`. -/
def startsWithChars : List Char → List Char → Bool
  | _, [] => true
  | [], _ :: _ => false
  | c :: cs, p :: ps => c = p && startsWithChars cs ps

/-- `containsChars pat hay` is true when `pat` occurs contiguously inside
`hay`. -/
def containsChars (pat : List Char) : List Char → Bool
  | [] => startsWithChars [] pat
  | c :: rest => startsWithChars (c :: rest) pat || containsChars pat rest

/-- `strContains hay pat`: JS `hay.includes(pat)` (case-sensitive substring
test; the empty pattern matches every string). -/
def strContains (hay pat : String) : Bool :=
  containsChars pat.toList hay.toList

/-- JS truthiness of an optional string: `undefined` and `""` are falsy. -/
def jsTruthy : Option String → Bool
  | none => false
  | some s => !s.isEmpty

/-- JS `s.toLowerCase()` restricted to the ASCII range of the analytics
metadata vocabulary: lowercase every character. -/
def strToLower (s : String) : String :=
  String.mk (s.data.map Char.toLower)

/-! ## ErrorClassifier (`executeWithErrorHandling`, src/index.js lines 27-64)

The `catch` branch of `executeWithErrorHandling` inspects the thrown backend
error and renders one of two JSON payloads.  The error object is abstracted
to the `{code?, message?}` contract the code actually reads. -/

/-- Minimal contract of a backend error: optional numeric gRPC status code
and optional message (JS reads `error.code` and `error.message?`). -/
structure BackendError where
  code : Option Int := none
  message : Option String := none
deriving Repr, DecidableEq

/-- JS `error.message?.includes(pat)` — `none` message never matches. -/
def optMsgContains (msg : Option String) (pat : String) : Bool :=
  match msg with
  | none => false
  | some m => strContains m pat

/-- The guard of the permission branch:
`error.code === 7 || error.message?.includes('permission')`. -/
def isPermissionError (e : BackendError) : Bool :=
  e.code == some 7 || optMsgContains e.message "permission"

/-- Payload of the permission-denied diagnostic (src/index.js lines 36-47). -/
structure PermissionDeniedPayload where
  error : String
  propertyId : String
  solution : String
  steps : List String
  originalError : Option String
deriving Repr, DecidableEq

/-- Payload of the generic failure diagnostic (src/index.js lines 56-60). -/
structure GenericFailurePayload where
  error : String
  message : Option String
  propertyId : String
deriving Repr, DecidableEq

/-- The classified error: tagged union of the two diagnostic payloads. -/
inductive ClassifiedError where
  | permissionDenied (payload : PermissionDeniedPayload)
  | genericFailure (payload : GenericFailurePayload)
deriving Repr, DecidableEq

/-- The fixed ordered remediation-step list rendered for a permission
failure, parameterised by the service-account principal interpolated into
step 3 (src/index.js lines 40-45). -/
def remediationSteps (serviceAccountEmail : String) : List String :=
  ["1. Go to Google Analytics (analytics.google.com)",
   "2. Navigate to Admin > Property Access Management",
   "3. Add " ++ serviceAccountEmail ++ " with Viewer access",
   "4. Try the query again"]

/-- The `catch` branch of `executeWithErrorHandling`: classify a backend
error for a given property id and the process's service-account email. -/
def classifyError (e : BackendError) (propertyId : String)
    (serviceAccountEmail : String) : ClassifiedError :=
  if isPermissionError e then
    ClassifiedError.permissionDenied
      { error := "Permission denied for this Google Analytics property"
        propertyId := propertyId
        solution := "Please grant access to the service account: "
          ++ serviceAccountEmail
        steps := remediationSteps serviceAccountEmail
        originalError := e.message }
  else
    ClassifiedError.genericFailure
      { error := "Failed to fetch analytics data"
        message := e.message
        propertyId := propertyId }

lemma isPermissionError_iff (e : BackendError) :
    isPermissionError e = true ↔
      (e.code = some 7 ∨ ∃ m, e.message = some m ∧ strContains m "permission" = true) := by
  cases hm : e.message with
  | none => simp [isPermissionError, optMsgContains, hm]
  | some m => simp [isPermissionError, optMsgContains, hm]

/-- C1: for every backend error `e`, property id `p` and service principal
`s`, `classifyError` returns a permission-denied payload iff `e.code = 7`
or `e.message` contains the substring `"permission"`, and that payload
carries `p`, the principal `s` (in the solution line and the fixed ordered
remediation-step list), and `e.message`; every other error yields the
generic payload carrying `e.message` verbatim and `p`. -/
theorem C1_error_classifier (e : BackendError) (p s : String) :
    ((∃ pay, classifyError e p s = ClassifiedError.permissionDenied pay
        ∧ pay.propertyId = p
        ∧ pay.solution = "Please grant access to the service account: " ++ s
        ∧ pay.steps = remediationSteps s
        ∧ pay.originalError = e.message)
      ↔ (e.code = some 7 ∨ ∃ m, e.message = some m ∧ strContains m "permission" = true))
  ∧ ((∃ g, classifyError e p s = ClassifiedError.genericFailure g
        ∧ g.message = e.message ∧ g.propertyId = p)
      ↔ ¬(e.code = some 7 ∨ ∃ m, e.message = some m ∧ strContains m "permission" = true)) := by
  cases hb : isPermissionError e with
  | false =>
    have hnot : ¬(e.code = some 7 ∨ ∃ m, e.message = some m ∧ strContains m "permission" = true) := by
      intro hc
      have hcontra := (isPermissionError_iff e).mpr hc
      rw [hb] at hcontra
      exact Bool.false_ne_true hcontra
    have hcl : classifyError e p s = ClassifiedError.genericFailure
        { error := "Failed to fetch analytics data", message := e.message, propertyId := p } := by
      simp [classifyError, hb]
    refine ⟨⟨?_, ?_⟩, ⟨?_, ?_⟩⟩
    · rintro ⟨pay, hpay, -⟩
      rw [hcl] at hpay
      cases hpay
    · intro hc; exact absurd hc hnot
    · intro _; exact hnot
    · intro _; exact ⟨_, hcl, rfl, rfl⟩
  | true =>
    have hchar := (isPermissionError_iff e).mp hb
    have hcl : classifyError e p s = ClassifiedError.permissionDenied
        { error := "Permission denied for this Google Analytics property"
          propertyId := p
          solution := "Please grant access to the service account: " ++ s
          steps := remediationSteps s
          originalError := e.message } := by
      simp [classifyError, hb]
    refine ⟨⟨?_, ?_⟩, ⟨?_, ?_⟩⟩
    · intro _; exact hchar
    · intro _; exact ⟨_, hcl, rfl, rfl, rfl, rfl⟩
    · rintro ⟨g, hg, -⟩
      rw [hcl] at hg
      cases hg
    · intro hn; exact absurd hchar hn

/-! ## Request model (backend shapes produced by the tools)

The backend request assembled by `analytics_report` and `quick_insights`
(src/index.js lines 102-124 and 314-328): `property`, `dateRanges`,
`dimensions`, `metrics`, `limit` always present; `dimensionFilter`,
`metricFilter` and `orderBys` only when set (`none` models JS absence). -/

/-- `{startDate, endDate}` date range. -/
structure DateRange where
  startDate : String
  endDate : String
deriving Repr, DecidableEq

/-- The backend's `{name: string}` wrapper for a dimension or metric. -/
structure NameEntry where
  name : String
deriving Repr, DecidableEq

/-- A `stringFilter` clause `{matchType, value}`. -/
structure StringFilter where
  matchType : String
  value : String
deriving Repr, DecidableEq

/-- A dimension-filter node `{fieldName, stringFilter}`. -/
structure FilterNode where
  fieldName : String
  stringFilter : StringFilter
deriving Repr, DecidableEq

/-- A filter expression `{filter: node}` as the presets build it; the
free-form tool forwards such trees verbatim. -/
structure FilterExpr where
  filter : FilterNode
deriving Repr, DecidableEq

/-- One element of the backend `orderBys` sequence: either
`{metric: {metricName}, desc}` or `{dimension: {dimensionName}, desc}`. -/
inductive OrderRule where
  | metricRule (metricName : String) (desc : Bool)
  | dimensionRule (dimensionName : String) (desc : Bool)
deriving Repr, DecidableEq

/-- The aggregated-report request shape sent to `runReport`. -/
structure ReportRequest where
  property : String
  dateRanges : List DateRange
  dimensions : List NameEntry
  metrics : List NameEntry
  limit : Nat
  dimensionFilter : Option FilterExpr := none
  metricFilter : Option FilterExpr := none
  orderBys : Option (List OrderRule) := none
deriving Repr, DecidableEq

/-- The caller's `orderBy` argument `{dimension?, metric?, desc}`; the zod
schema defaults `desc` to `true`. -/
structure OrderBySpec where
  dimension : Option String := none
  metric : Option String := none
  desc : Bool := true
deriving Repr, DecidableEq

/-- Arguments of the `analytics_report` tool after schema parsing; `none`
models an argument the caller omitted. -/
structure AnalyticsReportArgs where
  propertyId : String
  startDate : String
  endDate : String
  dimensions : Option (List String) := none
  metrics : List String
  dimensionFilter : Option FilterExpr := none
  metricFilter : Option FilterExpr := none
  orderBy : Option OrderBySpec := none
  limit : Option Nat := none
deriving Repr, DecidableEq

/-- Lowering of the `orderBy` argument (src/index.js lines 118-124):
`if (orderBy) { if (orderBy.metric) {...} else if (orderBy.dimension)
{...} }` — JS truthiness, so an empty-string field counts as unset, and
when neither branch fires the `orderBys` field is never assigned. -/
def compileOrderBys (orderBy : Option OrderBySpec) : Option (List OrderRule) :=
  match orderBy with
  | none => none
  | some ob =>
    if jsTruthy ob.metric then
      some [OrderRule.metricRule (ob.metric.getD "") ob.desc]
    else if jsTruthy ob.dimension then
      some [OrderRule.dimensionRule (ob.dimension.getD "") ob.desc]
    else none

/-- The request assembled by the `analytics_report` handler
(src/index.js lines 102-124): destructuring defaults `dimensions = []`,
`limit = 100`; filters are forwarded verbatim when present. -/
def analyticsReportRequest (args : AnalyticsReportArgs) : ReportRequest :=
  { property := "properties/" ++ args.propertyId
    dateRanges := [{ startDate := args.startDate, endDate := args.endDate }]
    dimensions := (args.dimensions.getD []).map NameEntry.mk
    metrics := args.metrics.map NameEntry.mk
    limit := args.limit.getD 100
    dimensionFilter := args.dimensionFilter
    metricFilter := args.metricFilter
    orderBys := compileOrderBys args.orderBy }

/-! ## Tool entry points

Every tool first guards on `if (!propertyId)` (JS truthiness: the empty
string is rejected) and returns a structured guidance payload as a normal
result; only otherwise does it build a backend request.  `ToolStep`
captures this pure part of the handler: either the guidance payload or the
backend request that is submitted. -/

/-- The "Property ID required" guidance payload (src/index.js lines 88-98;
the `example` JSON key is spelled with guillemets because `example` is a
Lean keyword). -/
structure GuidancePayload where
  error : String
  «example» : String
  instruction : String
deriving Repr, DecidableEq

/-- The constant guidance payload returned whenever `propertyId` is falsy. -/
def propertyIdRequiredPayload : GuidancePayload :=
  { error := "Property ID is required. Please specify a propertyId parameter."
    «example» := "propertyId: \"123456789\""
    instruction := "Please provide the Google Analytics 4 property ID you want to query." }

/-- Outcome of the pure part of a tool handler: a structured guidance
payload returned without touching the backend, or the backend request. -/
inductive ToolStep (ρ : Type) where
  | guidance (payload : GuidancePayload)
  | backendCall (request : ρ)
deriving Repr, DecidableEq

/-- The `analytics_report` tool (src/index.js lines 85-137). -/
def analytics_report (args : AnalyticsReportArgs) : ToolStep ReportRequest :=
  if args.propertyId.isEmpty then ToolStep.guidance propertyIdRequiredPayload
  else ToolStep.backendCall (analyticsReportRequest args)

/-- Arguments of the `realtime_data` tool. -/
structure RealtimeArgs where
  propertyId : String
  dimensions : Option (List String) := none
  metrics : Option (List String) := none
  limit : Option Nat := none
deriving Repr, DecidableEq

/-- The realtime request shape sent to `runRealtimeReport`. -/
structure RealtimeRequest where
  property : String
  dimensions : List NameEntry
  metrics : List NameEntry
  limit : Nat
deriving Repr, DecidableEq

/-- The request assembled by the `realtime_data` handler (src/index.js
lines 149-171): destructuring defaults `dimensions = []`,
`metrics = ['activeUsers']`, `limit = 50`. -/
def realtimeRequest (args : RealtimeArgs) : RealtimeRequest :=
  { property := "properties/" ++ args.propertyId
    dimensions := (args.dimensions.getD []).map NameEntry.mk
    metrics := (args.metrics.getD ["activeUsers"]).map NameEntry.mk
    limit := args.limit.getD 50 }

/-- The `realtime_data` tool (src/index.js lines 149-182). -/
def realtime_data (args : RealtimeArgs) : ToolStep RealtimeRequest :=
  if args.propertyId.isEmpty then ToolStep.guidance propertyIdRequiredPayload
  else ToolStep.backendCall (realtimeRequest args)

/-! ## PresetCatalog (`quick_insights`, src/index.js lines 206-341) -/

/-- The ten fixed preset identifiers of the `reportType` enum. -/
inductive ReportType where
  | overview
  | top_pages
  | traffic_sources
  | geographic
  | user_demographics
  | conversions
  | us_states
  | engagement_metrics
  | ecommerce_overview
  | device_technology
deriving Repr, DecidableEq

/-- A preset's query fragment (`reportConfig` in the source). -/
structure ReportConfig where
  dimensions : List String
  metrics : List String
  dimensionFilter : Option FilterExpr := none
  orderBys : Option (List OrderRule) := none
deriving Repr, DecidableEq

/-- The preset catalog: the `switch (reportType)` table of `quick_insights`
(src/index.js lines 225-312), transcribed case by case. -/
def reportConfig : ReportType → ReportConfig
  | ReportType.overview =>
    { dimensions := ["date"]
      metrics := ["activeUsers", "sessions", "screenPageViews", "bounceRate",
                  "averageSessionDuration"] }
  | ReportType.top_pages =>
    { dimensions := ["pagePath", "pageTitle"]
      metrics := ["screenPageViews", "activeUsers", "bounceRate"]
      orderBys := some [OrderRule.metricRule "screenPageViews" true] }
  | ReportType.traffic_sources =>
    { dimensions := ["sessionDefaultChannelGroup", "sessionSource", "sessionMedium"]
      metrics := ["sessions", "activeUsers", "newUsers", "bounceRate"]
      orderBys := some [OrderRule.metricRule "sessions" true] }
  | ReportType.geographic =>
    { dimensions := ["country", "region", "city"]
      metrics := ["activeUsers", "sessions", "newUsers", "bounceRate"]
      orderBys := some [OrderRule.metricRule "activeUsers" true] }
  | ReportType.user_demographics =>
    { dimensions := ["userAgeBracket", "userGender", "country"]
      metrics := ["activeUsers", "sessions", "averageSessionDuration", "bounceRate"] }
  | ReportType.conversions =>
    { dimensions := ["eventName", "sessionDefaultChannelGroup"]
      metrics := ["conversions", "eventCount", "eventValue"]
      dimensionFilter := some
        { filter := { fieldName := "eventName"
                      stringFilter := { matchType := "CONTAINS", value := "conversion" } } } }
  | ReportType.us_states =>
    { dimensions := ["region", "city"]
      metrics := ["activeUsers", "sessions", "newUsers"]
      dimensionFilter := some
        { filter := { fieldName := "country"
                      stringFilter := { matchType := "EXACT", value := "United States" } } }
      orderBys := some [OrderRule.metricRule "activeUsers" true] }
  | ReportType.engagement_metrics =>
    { dimensions := ["date"]
      metrics := ["bounceRate", "engagementRate", "engagedSessions",
                  "averageSessionDuration", "screenPageViewsPerSession",
                  "userEngagementDuration"] }
  | ReportType.ecommerce_overview =>
    { dimensions := ["date"]
      metrics := ["totalRevenue", "transactions", "averagePurchaseRevenue",
                  "itemRevenue", "addToCarts", "checkouts", "ecommercePurchases"] }
  | ReportType.device_technology =>
    { dimensions := ["deviceCategory", "operatingSystem", "browser"]
      metrics := ["activeUsers", "sessions", "bounceRate", "averageSessionDuration"]
      orderBys := some [OrderRule.metricRule "activeUsers" true] }

/-- The request assembled by the `quick_insights` handler from a preset
(src/index.js lines 314-328): the preset's filter and ordering are merged
verbatim when present. -/
def quickInsightsRequest (propertyId startDate endDate : String)
    (reportType : ReportType) (limit : Nat) : ReportRequest :=
  let cfg := reportConfig reportType
  { property := "properties/" ++ propertyId
    dateRanges := [{ startDate := startDate, endDate := endDate }]
    dimensions := cfg.dimensions.map NameEntry.mk
    metrics := cfg.metrics.map NameEntry.mk
    limit := limit
    dimensionFilter := cfg.dimensionFilter
    metricFilter := none
    orderBys := cfg.orderBys }

/-- Arguments of the `quick_insights` tool; `limit` defaults to 20. -/
structure QuickInsightsArgs where
  propertyId : String
  startDate : String
  endDate : String
  reportType : ReportType
  limit : Option Nat := none
deriving Repr, DecidableEq

/-- The `quick_insights` tool (src/index.js lines 206-341). -/
def quick_insights (args : QuickInsightsArgs) : ToolStep ReportRequest :=
  if args.propertyId.isEmpty then ToolStep.guidance propertyIdRequiredPayload
  else ToolStep.backendCall
    (quickInsightsRequest args.propertyId args.startDate args.endDate
      args.reportType (args.limit.getD 20))

/-! ## Metadata tools (`get_metadata`, `search_metadata`,
src/index.js lines 351-404 and 416-488) -/

/-- A dimension descriptor from the backend metadata document; every field
the code touches may be absent (`dim.apiName?` etc.). -/
structure DimensionMeta where
  apiName : Option String := none
  uiName : Option String := none
  description : Option String := none
  category : Option String := none
  customDefinition : Option Bool := none
deriving Repr, DecidableEq

/-- A metric descriptor from the backend metadata document (adds `type`). -/
structure MetricMeta where
  apiName : Option String := none
  uiName : Option String := none
  description : Option String := none
  type : Option String := none
  category : Option String := none
  customDefinition : Option Bool := none
deriving Repr, DecidableEq

/-- The backend metadata document: `response.dimensions?` and
`response.metrics?` may each be absent. -/
structure MetadataDoc where
  dimensions : Option (List DimensionMeta) := none
  metrics : Option (List MetricMeta) := none
deriving Repr, DecidableEq

/-- The `{name: "<property>/metadata"}` request of `getMetadata`. -/
structure MetadataRequest where
  name : String
deriving Repr, DecidableEq

/-- The `type` argument of the metadata tools. -/
inductive MetadataType where
  | dimensions
  | metrics
  | both
deriving Repr, DecidableEq

/-- Arguments of the `get_metadata` tool; `type` defaults to `both`. -/
structure MetadataArgs where
  propertyId : String
  type : MetadataType := MetadataType.both
deriving Repr, DecidableEq

/-- The `get_metadata` tool's pure guard-and-request stage
(src/index.js lines 351-370). -/
def get_metadata (args : MetadataArgs) : ToolStep MetadataRequest :=
  if args.propertyId.isEmpty then ToolStep.guidance propertyIdRequiredPayload
  else ToolStep.backendCall
    { name := "properties/" ++ args.propertyId ++ "/metadata" }

/-- Arguments of the `search_metadata` tool. -/
structure SearchMetadataArgs where
  propertyId : String
  query : String
  type : MetadataType := MetadataType.both
  category : Option String := none
deriving Repr, DecidableEq

/-- The `search_metadata` tool's pure guard-and-request stage
(src/index.js lines 416-435). -/
def search_metadata (args : SearchMetadataArgs) : ToolStep MetadataRequest :=
  if args.propertyId.isEmpty then ToolStep.guidance propertyIdRequiredPayload
  else ToolStep.backendCall
    { name := "properties/" ++ args.propertyId ++ "/metadata" }

/-- `field?.toLowerCase().includes(searchTerm)`: an absent field never
matches; a present field matches when its lowercasing contains the
(already lowercased) search term. -/
def fieldMatches (field : Option String) (searchTerm : String) : Bool :=
  match field with
  | none => false
  | some s => strContains (strToLower s) searchTerm

/-- `matchesSearch` for a dimension descriptor (src/index.js lines
442-445): OR over `apiName`, `uiName`, `description`. -/
def dimMatchesSearch (searchTerm : String) (d : DimensionMeta) : Bool :=
  fieldMatches d.apiName searchTerm || fieldMatches d.uiName searchTerm
    || fieldMatches d.description searchTerm

/-- `matchesSearch` for a metric descriptor (src/index.js lines 461-464). -/
def metricMatchesSearch (searchTerm : String) (m : MetricMeta) : Bool :=
  fieldMatches m.apiName searchTerm || fieldMatches m.uiName searchTerm
    || fieldMatches m.description searchTerm

/-- `!category || descriptor.category === category` (src/index.js lines
447 and 466): a falsy `category` argument (absent or empty string) matches
everything; otherwise strict equality against the descriptor's category
(an absent descriptor category never equals a truthy argument). -/
def catMatches (category : Option String) (descriptorCategory : Option String) : Bool :=
  if jsTruthy category then descriptorCategory == category else true

/-- The dimension arm of `search_metadata` (src/index.js lines 441-456):
filter the document's dimensions by text and category, then project the
five reported fields. -/
def searchDimensions (doc : MetadataDoc) (query : String)
    (category : Option String) : List DimensionMeta :=
  ((doc.dimensions.getD []).filter
      (fun d => dimMatchesSearch (strToLower query) d && catMatches category d.category)).map
    (fun d =>
      { apiName := d.apiName
        uiName := d.uiName
        description := d.description
        category := d.category
        customDefinition := d.customDefinition })

/-- The metric arm of `search_metadata` (src/index.js lines 460-476). -/
def searchMetrics (doc : MetadataDoc) (query : String)
    (category : Option String) : List MetricMeta :=
  ((doc.metrics.getD []).filter
      (fun m => metricMatchesSearch (strToLower query) m && catMatches category m.category)).map
    (fun m =>
      { apiName := m.apiName
        uiName := m.uiName
        description := m.description
        type := m.type
        category := m.category
        customDefinition := m.customDefinition })

/-- The result object of `search_metadata`: each key present only when the
`type` argument selects it. -/
structure SearchResult where
  dimensions : Option (List DimensionMeta) := none
  metrics : Option (List MetricMeta) := none
deriving Repr, DecidableEq

/-- Assembly of the `search_metadata` result from the fetched document
(src/index.js lines 437-477). -/
def searchMetadataResult (args : SearchMetadataArgs) (doc : MetadataDoc) : SearchResult :=
  { dimensions :=
      if args.type = MetadataType.dimensions ∨ args.type = MetadataType.both then
        some (searchDimensions doc args.query args.category)
      else none
    metrics :=
      if args.type = MetadataType.metrics ∨ args.type = MetadataType.both then
        some (searchMetrics doc args.query args.category)
      else none }

/-! ## Per-tool limit defaults

The schema/destructuring defaults of the `limit` argument for every tool of
the current entry point (`src/index.js`) and of the two earlier entry-point
revisions kept in the repository; `none` records a tool with no `limit`
argument at all. -/

/-- `limit` defaults of the tools registered by `src/index.js`. -/
def toolLimitDefaults : List (String × Option Nat) :=
  [("analytics_report", some 100),
   ("realtime_data", some 50),
   ("quick_insights", some 20),
   ("get_metadata", none),
   ("search_metadata", none)]

/-- `limit` defaults of the tools of the two earlier entry-point revisions
(identical tables in both revisions). -/
def legacyToolLimitDefaults : List (String × Option Nat) :=
  [("query_analytics", some 100),
   ("get_realtime_data", none),
   ("get_traffic_sources", some 50),
   ("get_user_demographics", none),
   ("get_page_performance", some 50),
   ("get_conversion_data", none),
   ("get_custom_report", some 100)]

/-! ## Theorems about the compiled aggregated-report request -/

/-- C2: for every `analytics_report` invocation whose `orderBy` satisfies
the at-most-one-of-metric/dimension invariant (a field is "set" when it is
present and non-empty, i.e. JS-truthy), the compiled request carries
exactly one ordering rule — a metric-rule when `orderBy.metric` is set, a
dimension-rule when `orderBy.dimension` is set — never both, and the
`orderBys` field is entirely absent when `orderBy` is unset or when
neither field is set. -/
theorem C2_orderBy_single_rule (args : AnalyticsReportArgs)
    (hinv : ∀ ob, args.orderBy = some ob →
      jsTruthy ob.metric = false ∨ jsTruthy ob.dimension = false) :
    (args.orderBy = none → (analyticsReportRequest args).orderBys = none)
  ∧ (∀ ob m, args.orderBy = some ob → ob.metric = some m → m.isEmpty = false →
      (analyticsReportRequest args).orderBys
        = some [OrderRule.metricRule m ob.desc])
  ∧ (∀ ob d, args.orderBy = some ob → ob.dimension = some d → d.isEmpty = false →
      (analyticsReportRequest args).orderBys
        = some [OrderRule.dimensionRule d ob.desc])
  ∧ (∀ ob, args.orderBy = some ob → jsTruthy ob.metric = false →
      jsTruthy ob.dimension = false →
      (analyticsReportRequest args).orderBys = none) := by
  refine ⟨?_, ?_, ?_, ?_⟩
  · intro h
    simp [analyticsReportRequest, compileOrderBys, h]
  · intro ob m hob hm hme
    simp [analyticsReportRequest, compileOrderBys, hob, jsTruthy, hm, hme]
  · intro ob d hob hd hde
    rcases hinv ob hob with hmf | hdf
    · have hdt : jsTruthy (some d) = true := by
        simp [jsTruthy, hde]
      simp [analyticsReportRequest, compileOrderBys, hob, hmf, hd, hdt]
    · rw [hd] at hdf
      simp [jsTruthy, hde] at hdf
  · intro ob hob hmf hdf
    simp [analyticsReportRequest, compileOrderBys, hob, hmf, hdf]

/-- Witness for C2 at a concrete invocation with a metric ordering. -/
theorem C2_witness :
    (analyticsReportRequest
      { propertyId := "123", startDate := "2024-01-01", endDate := "2024-01-31"
        metrics := ["activeUsers"]
        orderBy := some { metric := some "sessions" } }).orderBys
      = some [OrderRule.metricRule "sessions" true] :=
  (C2_orderBy_single_rule
    { propertyId := "123", startDate := "2024-01-01", endDate := "2024-01-31"
      metrics := ["activeUsers"]
      orderBy := some { metric := some "sessions" } }
    (fun ob hob => by cases hob; exact Or.inr rfl)).2.1
    { metric := some "sessions" } "sessions" rfl rfl rfl

/-- C9: when a caller supplies an `orderBy` with both the metric and the
dimension field set (both present and non-empty), the compiled request is
not rejected: it contains a single metric-rule built from `orderBy.metric`
and `orderBy.dimension` is silently ignored. -/
theorem C9_metric_precedence (args : AnalyticsReportArgs) (ob : OrderBySpec)
    (m d : String) (hob : args.orderBy = some ob) (hm : ob.metric = some m)
    (hme : m.isEmpty = false) (hd : ob.dimension = some d)
    (hde : d.isEmpty = false) :
    (analyticsReportRequest args).orderBys
      = some [OrderRule.metricRule m ob.desc] := by
  simp [analyticsReportRequest, compileOrderBys, hob, jsTruthy, hm, hme]

/-- Witness for C9 at a concrete invocation with both fields set. -/
theorem C9_witness :
    (analyticsReportRequest
      { propertyId := "123", startDate := "2024-01-01", endDate := "2024-01-31"
        metrics := ["sessions"]
        orderBy := some { dimension := some "country", metric := some "sessions" } }).orderBys
      = some [OrderRule.metricRule "sessions" true] :=
  C9_metric_precedence _ _ "sessions" "country" rfl rfl rfl rfl rfl

/-- C3 counterexample: no tool of any entry-point revision has a `limit`
default of 5, refuting the claimed "5 for small lookups" default. -/
theorem C3_counterexample :
    ¬ ∃ t ∈ toolLimitDefaults ++ legacyToolLimitDefaults, t.2 = some 5 := by
  decide

/-- C3 as amended: the per-tool `limit` defaults are 100 for the free-form
and custom query tools, 50 for the realtime tool and the legacy
source/page/traffic report tools, and 20 for the preset tool; no tool
defaults to 5; and an aggregated-report invocation that leaves `limit`
unset compiles to a request carrying `limit = 100` exactly. -/
theorem C3_amended_limit_defaults (args : AnalyticsReportArgs) :
    (args.limit = none → (analyticsReportRequest args).limit = 100)
  ∧ (toolLimitDefaults.lookup "analytics_report" = some (some 100)
      ∧ legacyToolLimitDefaults.lookup "query_analytics" = some (some 100)
      ∧ legacyToolLimitDefaults.lookup "get_custom_report" = some (some 100)
      ∧ toolLimitDefaults.lookup "realtime_data" = some (some 50)
      ∧ legacyToolLimitDefaults.lookup "get_traffic_sources" = some (some 50)
      ∧ legacyToolLimitDefaults.lookup "get_page_performance" = some (some 50)
      ∧ toolLimitDefaults.lookup "quick_insights" = some (some 20)
      ∧ (toolLimitDefaults ++ legacyToolLimitDefaults).all
          (fun t => !(t.2 == some 5)) = true) := by
  constructor
  · intro h
    simp [analyticsReportRequest, h]
  · decide

/-- Witness for C3 at a concrete invocation with `limit` unset. -/
theorem C3_witness :
    (analyticsReportRequest
      { propertyId := "123", startDate := "2024-01-01", endDate := "2024-01-31"
        metrics := ["activeUsers"] }).limit = 100 :=
  (C3_amended_limit_defaults
    { propertyId := "123", startDate := "2024-01-01", endDate := "2024-01-31"
      metrics := ["activeUsers"] }).1 rfl

/-- C6: the `us_states` preset's `dimensionFilter` is the constant
exact-equality filter on the `country` field with value
`"United States"`, for every property id, date range, and limit. -/
theorem C6_us_states_filter (p s e : String) (l : Nat) :
    (quickInsightsRequest p s e ReportType.us_states l).dimensionFilter
      = some { filter := { fieldName := "country"
                           stringFilter := { matchType := "EXACT"
                                             value := "United States" } } } := rfl

/-- C7: the compiled request's dimension and metric sequences are the
input sequences in order, each name wrapped as `{name}`; unwrapping the
compiled sequences returns the inputs exactly (no reorder, drop, or
duplicate). -/
theorem C7_order_preservation (args : AnalyticsReportArgs) :
    (analyticsReportRequest args).dimensions
        = (args.dimensions.getD []).map NameEntry.mk
  ∧ (analyticsReportRequest args).metrics = args.metrics.map NameEntry.mk
  ∧ (analyticsReportRequest args).dimensions.map NameEntry.name
        = args.dimensions.getD []
  ∧ (analyticsReportRequest args).metrics.map NameEntry.name = args.metrics := by
  have hcomp : (NameEntry.name ∘ NameEntry.mk) = id := rfl
  refine ⟨rfl, rfl, ?_, ?_⟩ <;>
    simp [analyticsReportRequest, List.map_map, hcomp]

/-- C10 counterexample: a realtime invocation that explicitly passes an
empty `metrics` array reaches the backend with an empty compiled metrics
list, refuting the claim that every realtime request reaching the backend
has non-empty metrics. -/
theorem C10_counterexample :
    realtime_data { propertyId := "123", metrics := some [] }
        = ToolStep.backendCall
            (realtimeRequest { propertyId := "123", metrics := some [] })
      ∧ (realtimeRequest { propertyId := "123", metrics := some [] }).metrics
          = [] :=
  ⟨rfl, rfl⟩

/-- C10 as amended: the realtime tool defaults an omitted `metrics`
argument to `['activeUsers']`, so every realtime invocation that omits
`metrics` compiles to a request whose metrics list is exactly
`[{name: "activeUsers"}]` and in particular non-empty; only an explicitly
supplied empty list reaches the backend with empty metrics. -/
theorem C10_amended_realtime_metrics (args : RealtimeArgs)
    (h : args.metrics = none) :
    (realtimeRequest args).metrics = [NameEntry.mk "activeUsers"]
  ∧ (realtimeRequest args).metrics ≠ [] := by
  constructor
  · simp [realtimeRequest, h]
  · simp [realtimeRequest, h]

/-- Witness for C10 at a concrete invocation omitting `metrics`. -/
theorem C10_witness :
    (realtimeRequest { propertyId := "123" }).metrics
        = [NameEntry.mk "activeUsers"]
  ∧ (realtimeRequest { propertyId := "123" }).metrics ≠ [] :=
  C10_amended_realtime_metrics { propertyId := "123" } rfl

/-! ## Theorems about the property-id guard and the metadata search -/

lemma toolStep_guard {ρ : Type} (b : Bool) (req : ρ) :
    ((if b then ToolStep.guidance (ρ := ρ) propertyIdRequiredPayload
        else ToolStep.backendCall req)
      = ToolStep.guidance propertyIdRequiredPayload ↔ b = true)
  ∧ ((∃ r, (if b then ToolStep.guidance (ρ := ρ) propertyIdRequiredPayload
        else ToolStep.backendCall req) = ToolStep.backendCall r) ↔ b = false) := by
  cases b <;> simp

/-- C5: for every invocation of every tool, the tool returns the
structured "Property ID required" guidance payload as a normal result
exactly when `propertyId` is empty, and the backend call stage is reached
exactly when `propertyId` is non-empty (the embedding is a total function,
so no exception is raised on either path). -/
theorem C5_property_guard (a : AnalyticsReportArgs) (r : RealtimeArgs)
    (q : QuickInsightsArgs) (g : MetadataArgs) (s : SearchMetadataArgs) :
    (analytics_report a = ToolStep.guidance propertyIdRequiredPayload
        ↔ a.propertyId.isEmpty = true)
  ∧ ((∃ req, analytics_report a = ToolStep.backendCall req)
        ↔ a.propertyId.isEmpty = false)
  ∧ (realtime_data r = ToolStep.guidance propertyIdRequiredPayload
        ↔ r.propertyId.isEmpty = true)
  ∧ ((∃ req, realtime_data r = ToolStep.backendCall req)
        ↔ r.propertyId.isEmpty = false)
  ∧ (quick_insights q = ToolStep.guidance propertyIdRequiredPayload
        ↔ q.propertyId.isEmpty = true)
  ∧ ((∃ req, quick_insights q = ToolStep.backendCall req)
        ↔ q.propertyId.isEmpty = false)
  ∧ (get_metadata g = ToolStep.guidance propertyIdRequiredPayload
        ↔ g.propertyId.isEmpty = true)
  ∧ ((∃ req, get_metadata g = ToolStep.backendCall req)
        ↔ g.propertyId.isEmpty = false)
  ∧ (search_metadata s = ToolStep.guidance propertyIdRequiredPayload
        ↔ s.propertyId.isEmpty = true)
  ∧ ((∃ req, search_metadata s = ToolStep.backendCall req)
        ↔ s.propertyId.isEmpty = false) := by
  unfold analytics_report realtime_data quick_insights get_metadata search_metadata
  exact ⟨(toolStep_guard _ _).1, (toolStep_guard _ _).2,
         (toolStep_guard _ _).1, (toolStep_guard _ _).2,
         (toolStep_guard _ _).1, (toolStep_guard _ _).2,
         (toolStep_guard _ _).1, (toolStep_guard _ _).2,
         (toolStep_guard _ _).1, (toolStep_guard _ _).2⟩

lemma fieldMatches_iff (f : Option String) (t : String) :
    fieldMatches f t = true
      ↔ ∃ s, f = some s ∧ strContains (strToLower s) t = true := by
  cases f <;> simp [fieldMatches]

lemma catMatches_iff (c dc : Option String) :
    catMatches c dc = true ↔ (jsTruthy c = false ∨ dc = c) := by
  unfold catMatches
  cases h : jsTruthy c <;> simp [h]

lemma mem_searchDimensions (doc : MetadataDoc) (q : String)
    (c : Option String) (d : DimensionMeta) :
    d ∈ searchDimensions doc q c
      ↔ d ∈ doc.dimensions.getD []
        ∧ dimMatchesSearch (strToLower q) d = true
        ∧ catMatches c d.category = true := by
  unfold searchDimensions
  constructor
  · intro h
    rcases List.mem_map.mp h with ⟨a, ha, hproj⟩
    rcases List.mem_filter.mp ha with ⟨hmem, hpred⟩
    have heq : a = d := hproj
    subst heq
    rw [Bool.and_eq_true] at hpred
    exact ⟨hmem, hpred.1, hpred.2⟩
  · rintro ⟨hmem, hm, hc⟩
    exact List.mem_map.mpr
      ⟨d, List.mem_filter.mpr ⟨hmem, by rw [Bool.and_eq_true]; exact ⟨hm, hc⟩⟩, rfl⟩

lemma mem_searchMetrics (doc : MetadataDoc) (q : String)
    (c : Option String) (m : MetricMeta) :
    m ∈ searchMetrics doc q c
      ↔ m ∈ doc.metrics.getD []
        ∧ metricMatchesSearch (strToLower q) m = true
        ∧ catMatches c m.category = true := by
  unfold searchMetrics
  constructor
  · intro h
    rcases List.mem_map.mp h with ⟨a, ha, hproj⟩
    rcases List.mem_filter.mp ha with ⟨hmem, hpred⟩
    have heq : a = m := hproj
    subst heq
    rw [Bool.and_eq_true] at hpred
    exact ⟨hmem, hpred.1, hpred.2⟩
  · rintro ⟨hmem, hm, hc⟩
    exact List.mem_map.mpr
      ⟨m, List.mem_filter.mpr ⟨hmem, by rw [Bool.and_eq_true]; exact ⟨hm, hc⟩⟩, rfl⟩

/-- C4 counterexample: a descriptor with all three text fields absent and
category `"USER"` is not returned by the search for the empty query with
category `"USER"`, although the claim says an empty query matches every
descriptor while the category still filters. -/
theorem C4_counterexample :
    searchDimensions { dimensions := some [{ category := some "USER" }] }
      "" (some "USER") = [] := rfl

/-- C4 as amended: a descriptor is returned by the metadata search iff it
occurs in the document and (the lowercased query is a substring of the
lowercasing of at least one of its PRESENT fields among `apiName`,
`uiName`, `description` — an absent field never matches, so a descriptor
with all three fields absent is never returned, even by the empty query)
and (the category argument is absent or empty, or the descriptor's
category equals it exactly, with no case folding). -/
theorem C4_search_semantics (doc : MetadataDoc) (q : String)
    (c : Option String) :
    (∀ d : DimensionMeta, d ∈ searchDimensions doc q c
      ↔ d ∈ doc.dimensions.getD []
        ∧ ((∃ t, d.apiName = some t ∧ strContains (strToLower t) (strToLower q) = true)
           ∨ (∃ t, d.uiName = some t ∧ strContains (strToLower t) (strToLower q) = true)
           ∨ (∃ t, d.description = some t ∧ strContains (strToLower t) (strToLower q) = true))
        ∧ (jsTruthy c = false ∨ d.category = c))
  ∧ (∀ m : MetricMeta, m ∈ searchMetrics doc q c
      ↔ m ∈ doc.metrics.getD []
        ∧ ((∃ t, m.apiName = some t ∧ strContains (strToLower t) (strToLower q) = true)
           ∨ (∃ t, m.uiName = some t ∧ strContains (strToLower t) (strToLower q) = true)
           ∨ (∃ t, m.description = some t ∧ strContains (strToLower t) (strToLower q) = true))
        ∧ (jsTruthy c = false ∨ m.category = c)) := by
  constructor
  · intro d
    rw [mem_searchDimensions]
    refine and_congr Iff.rfl (and_congr ?_ (catMatches_iff c d.category))
    simp only [dimMatchesSearch, Bool.or_eq_true, or_assoc]
    exact or_congr (fieldMatches_iff _ _)
      (or_congr (fieldMatches_iff _ _) (fieldMatches_iff _ _))
  · intro m
    rw [mem_searchMetrics]
    refine and_congr Iff.rfl (and_congr ?_ (catMatches_iff c m.category))
    simp only [metricMatchesSearch, Bool.or_eq_true, or_assoc]
    exact or_congr (fieldMatches_iff _ _)
      (or_congr (fieldMatches_iff _ _) (fieldMatches_iff _ _))

/-- C8: the metadata search is a total function of any descriptor,
including descriptors with absent optional fields: an absent field is
treated as non-matching for that field only, and a descriptor with an
absent field is still returned whenever another of the three text fields
matches and the category condition holds. -/
theorem C8_absent_field_safety (q : String) (c : Option String)
    (doc : MetadataDoc) (d : DimensionMeta)
    (habsent : d.apiName = none ∨ d.uiName = none ∨ d.description = none)
    (hmem : d ∈ doc.dimensions.getD [])
    (hmatch : dimMatchesSearch (strToLower q) d = true)
    (hcat : catMatches c d.category = true) :
    fieldMatches none (strToLower q) = false ∧ d ∈ searchDimensions doc q c :=
  ⟨rfl, (mem_searchDimensions doc q c d).mpr ⟨hmem, hmatch, hcat⟩⟩

/-- Witness for C8: a descriptor with absent `apiName` and `description`
is still returned because its `uiName` matches. -/
theorem C8_witness :
    fieldMatches none (strToLower "count") = false
  ∧ ({ uiName := some "Country" } : DimensionMeta)
      ∈ searchDimensions { dimensions := some [{ uiName := some "Country" }] }
          "count" none :=
  C8_absent_field_safety "count" none
    { dimensions := some [{ uiName := some "Country" }] }
    { uiName := some "Country" }
    (Or.inl rfl) (by decide) (by decide) (by decide)

end GAMcp
